import Mathlib

/-!
Verification of the SVF (Serial Vector Format) command parser in
playtag/svf/parser.py, as a shallow embedding.  Python errors are modelled
explicitly: the parser's own SvfError is one constructor, and the raw Python
failures the code can hit (KeyError from a dict lookup, NameError from an
undefined global, UnboundLocalError from a variable referenced before
assignment) are separate constructors, since the driver only catches SvfError.
-/

/-- Errors a command interpreter can raise.  svf is the parser's declared
SvfError; the other constructors are raw Python runtime errors that escape
the parser's own error handling. -/
inductive PyError where
  | svf (msg : String)
  | keyError (key : String)
  | nameError (nm : String)
  | unboundLocal (nm : String)
deriving DecidableEq, Repr

/-- True exactly when a command result failed with the parser's declared
SvfError (as opposed to a raw Python error of another type). -/
def isSvfError {α : Type} : Except PyError α → Bool
  | .error (.svf _) => true
  | _ => false

/-- Modelled from the spec: the JTAG state-name table built at class setup
from the playtag.jtag.states module, which is not among the sources; per the
spec it is "the full JTAG state table" keyed by upper-cased reversed names.
Here: the sixteen standard JTAG TAP states with distinct ids. -/
def statesList : List (String × Nat) :=
  [("RESET", 0), ("IDLE", 1),
   ("DRSELECT", 2), ("DRCAPTURE", 3), ("DRSHIFT", 4), ("DREXIT1", 5),
   ("DRPAUSE", 6), ("DREXIT2", 7), ("DRUPDATE", 8),
   ("IRSELECT", 9), ("IRCAPTURE", 10), ("IRSHIFT", 11), ("IREXIT1", 12),
   ("IRPAUSE", 13), ("IREXIT2", 14), ("IRUPDATE", 15)]

/-- Lookup in the JTAG state table (self.states.get / self.states[...]). -/
def states (s : String) : Option Nat := statesList.lookup s

/-- The id of the IDLE state in the modelled table (self.states.IDLE). -/
def statesIDLE : Nat := 1

/-- The stable-state set of the source: `stable = set('IRPAUSE DRPAUSE RESET IDLE'.split())`. -/
def stable : List String := ["IRPAUSE", "DRPAUSE", "RESET", "IDLE"]

/-- The source's `timing = dict(TCK=0, SCK=1, SEC=2)`. -/
def timing (s : String) : Option Nat :=
  if s = "TCK" then some 0
  else if s = "SCK" then some 1
  else if s = "SEC" then some 2
  else none

/-- The source's `valid_trst = dict(ON=1, OFF=0, Z=2, ABSENT=3)`.  No key maps
to Python None, so the source's `if value is None` check after the lookup is
dead code; a missing key raises KeyError. -/
def valid_trst (s : String) : Option Nat :=
  if s = "ON" then some 1
  else if s = "OFF" then some 0
  else if s = "Z" then some 2
  else if s = "ABSENT" then some 3
  else none

/-- Numeric value of a decimal digit character. -/
def digToNat (c : Char) : Nat := c.toNat - 48

/-- Value of a nonempty all-decimal-digit string of characters. -/
def natOfDigits (cs : List Char) : Nat := cs.foldl (fun a c => 10 * a + digToNat c) 0

/-- Python `int(s)` on an unsigned body: nonempty run of decimal digits. -/
def pyIntBody (cs : List Char) : Option Int :=
  if cs ≠ [] ∧ cs.all (·.isDigit) then some (natOfDigits cs) else none

/-- Python `int(s)` for the token character class (no whitespace): optional
sign then decimal digits; anything else fails (models the ValueError). -/
def pyInt (s : String) : Option Int :=
  match s.data with
  | '+' :: rest => pyIntBody rest
  | '-' :: rest => (pyIntBody rest).map Neg.neg
  | cs => pyIntBody cs

/-- Split off the maximal leading run of decimal digits. -/
def takeDigits : List Char → List Char × List Char
  | [] => ([], [])
  | c :: rest =>
    if c.isDigit then
      let p := takeDigits rest
      (c :: p.1, p.2)
    else ([], c :: rest)

/-- Exponent part of a float literal, after the e/E: optional sign and digits. -/
def pyExpPart (cs : List Char) : Option Int :=
  match cs with
  | '+' :: r => if r ≠ [] ∧ r.all (·.isDigit) then some (natOfDigits r) else none
  | '-' :: r => if r ≠ [] ∧ r.all (·.isDigit) then some (-(natOfDigits r : Int)) else none
  | r => if r ≠ [] ∧ r.all (·.isDigit) then some (natOfDigits r) else none

/-- Exact value of a finite Python float literal, kept as an unnormalized
numerator over a positive power-of-ten denominator; Python compares floats
numerically, which pyIntEqFloat below mirrors by cross-multiplication.  The
decimal literals SVF uses are all exactly representable this way. -/
structure PyFloat where
  num : Int
  den : Nat
deriving DecidableEq, Repr

/-- Numeric value of a parsed float, for readable statements. -/
def PyFloat.toRat (a : PyFloat) : ℚ := (a.num : ℚ) / (a.den : ℚ)

/-- Python numeric equality between an int and a float (used by the source's
`numclocks != secs[0]` comparison). -/
def pyIntEqFloat (i : Int) (q : PyFloat) : Bool := i * (q.den : Int) == q.num

/-- Negate a parsed float. -/
def PyFloat.neg (a : PyFloat) : PyFloat := ⟨-a.num, a.den⟩

/-- Scale a parsed float by a power of ten (the e/E exponent). -/
def PyFloat.scale (a : PyFloat) (k : Int) : PyFloat :=
  if 0 ≤ k then ⟨a.num * (10 : Int) ^ k.toNat, a.den⟩
  else ⟨a.num, a.den * 10 ^ (-k).toNat⟩

/-- Unsigned body of a Python `float(s)` literal:
digits [ "." digits* ] | "." digits+, with an optional e/E exponent.
(Non-finite literals such as inf/nan do not occur in SVF token streams.) -/
def pyFloatBody (cs : List Char) : Option PyFloat :=
  let p := takeDigits cs
  let ip := p.1
  match p.2 with
  | [] => if ip = [] then none else some ⟨natOfDigits ip, 1⟩
  | '.' :: rest2 =>
    let q := takeDigits rest2
    let fp := q.1
    if ip = [] ∧ fp = [] then none
    else
      let mant : PyFloat :=
        ⟨natOfDigits ip * 10 ^ fp.length + natOfDigits fp, 10 ^ fp.length⟩
      match q.2 with
      | [] => some mant
      | e :: rest4 =>
        if e = 'e' ∨ e = 'E' then (pyExpPart rest4).map mant.scale
        else none
  | e :: rest2 =>
    if (e = 'e' ∨ e = 'E') ∧ ip ≠ [] then
      (pyExpPart rest2).map (PyFloat.scale ⟨natOfDigits ip, 1⟩)
    else none

/-- Python `float(s)` for the token character class: optional sign then body. -/
def pyFloat (s : String) : Option PyFloat :=
  match s.data with
  | '+' :: rest => pyFloatBody rest
  | '-' :: rest => (pyFloatBody rest).map PyFloat.neg
  | cs => pyFloatBody cs

/-- Value of one hex digit, upper or lower case (as accepted by unhexlify). -/
def hexVal (c : Char) : Option Nat :=
  if c.isDigit then some (c.toNat - 48)
  else if 'a' ≤ c ∧ c ≤ 'f' then some (c.toNat - 87)
  else if 'A' ≤ c ∧ c ≤ 'F' then some (c.toNat - 55)
  else none

/-- binascii.unhexlify: decode an even-length hex string to bytes; odd length
or a non-hex character raises (modelled as none). -/
def unhexlify : List Char → Option (List Nat)
  | [] => some []
  | [_] => none
  | c1 :: c2 :: rest =>
    match hexVal c1, hexVal c2, unhexlify rest with
    | some h, some l, some bs => some ((16 * h + l) :: bs)
    | _, _, _ => none

/-- Token as assembled by getcmds: either a plain (upper-cased) word, or the
AnnotatedString hexdata marker carrying the sub-tokens collected between
parentheses. -/
inductive Tok where
  | word (s : String)
  | hexdata (subs : List String)
deriving DecidableEq, Repr

/-- The source's `hexdata_text = '(<hexdata>)'`, the text an AnnotatedString
hexdata token displays as when read as a plain string. -/
def hexdata_text : String := "(<hexdata>)"

/-- Text of a token when the interpreter consumes it as a plain string. -/
def Tok.text : Tok → String
  | .word s => s
  | .hexdata _ => hexdata_text

/-- Python str.upper() on a token (tokens are ASCII): upper-case each char. -/
def strUpper (s : String) : String := ⟨s.data.map Char.toUpper⟩

/-- Command-assembler mode: ordinary collection, or inside a parenthesized
hex block holding the sub-tokens gathered so far. -/
inductive AsmMode where
  | normal
  | hex (subcmd : List String)
deriving DecidableEq, Repr

/-- State machine of getcmds: the outer loop (normal mode) and the nested
inner loop that collects sub-tokens between "(" and ")" (hex mode) share the
one token iterator, which this single recursion over the token list mirrors.
cmd is the pending command buffer, cln its starting line (0 = Python falsy,
not yet set), acc the commands already yielded. -/
def getcmdsGo : List (String × Nat) → AsmMode → List Tok → Nat →
    List (List Tok × Nat) → Except PyError (List (List Tok × Nat))
  | [], _, cmd, cln, acc =>
    .ok (acc ++ if cmd = [] then [] else [(cmd, cln)])
  | (t, ln) :: rest, .normal, cmd, cln, acc =>
    if t = ";" then
      if cmd = [] then getcmdsGo rest .normal [] cln acc
      else getcmdsGo rest .normal [] 0 (acc ++ [(cmd, cln)])
    else if t = "(" then
      getcmdsGo rest (.hex []) cmd cln acc
    else
      getcmdsGo rest .normal (cmd ++ [.word (strUpper t)])
        (if cln = 0 then ln else cln) acc
  | (t, _) :: rest, .hex subcmd, cmd, cln, acc =>
    if t = ";" then .error (.svf "Missing closing parenthesis in command")
    else if t = ")" then getcmdsGo rest .normal (cmd ++ [.hexdata subcmd]) cln acc
    else getcmdsGo rest (.hex (subcmd ++ [t])) cmd cln acc

/-- getcmds: split a stream of (token, linenum) pairs into commands. -/
def getcmds (toks : List (String × Nat)) : Except PyError (List (List Tok × Nat)) :=
  getcmdsGo toks .normal [] 0 []

/-- Parameter names accepted inside register commands (`paramtypes`). -/
inductive PName where
  | MASK
  | SMASK
  | TDI
  | TDO
deriving DecidableEq, Repr

/-- Membership test `param not in mydict` of cmd_reg: the register dict's
keys besides these four are only the lower-case "length", which an
upper-cased token never matches. -/
def pnameOf (s : String) : Option PName :=
  if s = "MASK" then some .MASK
  else if s = "SMASK" then some .SMASK
  else if s = "TDI" then some .TDI
  else if s = "TDO" then some .TDO
  else none

/-- The source's `nodata = 0, ''`: an unset (length, bytes) parameter pair. -/
def nodata : Int × List Nat := (0, [])

/-- Sticky state of one register (one of SIR SDR HIR HDR TIR TDR): its
bit-length and the four (length, bytes) parameter pairs. -/
structure RegState where
  length : Int
  mask : Int × List Nat
  smask : Int × List Nat
  tdi : Int × List Nat
  tdo : Int × List Nat
deriving DecidableEq, Repr

/-- Read one parameter pair of a register. -/
def RegState.get (r : RegState) : PName → Int × List Nat
  | .MASK => r.mask
  | .SMASK => r.smask
  | .TDI => r.tdi
  | .TDO => r.tdo

/-- Overwrite one parameter pair of a register. -/
def RegState.set (r : RegState) : PName → Int × List Nat → RegState
  | .MASK, v => { r with mask := v }
  | .SMASK, v => { r with smask := v }
  | .TDI, v => { r with tdi := v }
  | .TDO, v => { r with tdo := v }

/-- A freshly initialized register: length 0 and every pair nodata. -/
def initReg : RegState := ⟨0, nodata, nodata, nodata, nodata⟩

/-- One step of cmd_reg's invalidation loop: `if plen and plen != length:
mydict[p] = nodata` (plen truthy means nonzero). -/
def invalParam (pr : Int × List Nat) (length : Int) : Int × List Nat :=
  if pr.1 ≠ 0 ∧ pr.1 ≠ length then nodata else pr

/-- The invalidation loop of cmd_reg over the four parameter names. -/
def invalidate (r : RegState) (length : Int) : RegState :=
  { r with
    mask := invalParam r.mask length
    smask := invalParam r.smask length
    tdi := invalParam r.tdi length
    tdo := invalParam r.tdo length }

/-- Concatenate the hex sub-tokens of a data block, insert a leading "0" when
the total digit count is odd, and unhexlify the result. -/
def decodeHexField (subs : List String) : Option (List Nat) :=
  let joined := String.join subs
  let padded := if joined.length % 2 = 1 then "0" ++ joined else joined
  unhexlify padded.data

/-- The (name, hexdata) pair loop of cmd_reg after the length was applied. -/
def regLoop (r : RegState) (length : Int) : List Tok → Except PyError RegState
  | [] => .ok r
  | p :: rest =>
    match pnameOf p.text with
    | none => .error (.svf ("Unknown parameter name " ++ p.text))
    | some pn =>
      match rest with
      | [] => .error (.svf ("Expected (<hex data>) after parameter " ++ p.text))
      | d :: rest2 =>
        match d with
        | .word _ => .error (.svf ("Expected (<hex data>) after parameter " ++ p.text))
        | .hexdata subs =>
          match decodeHexField subs with
          | none => .error (.svf ("Invalid (<hex data>) for parameter " ++ p.text))
          | some bytes => regLoop (r.set pn (length, bytes)) length rest2

/-- cmd_reg on a single register's sticky state: parse the bit length (a
missing or unparsable first token is the one SvfError of the try block), run
the invalidation loop, then consume (name, hexdata) pairs. -/
def cmd_reg (r : RegState) (params : List Tok) : Except PyError RegState :=
  match params with
  | [] => .error (.svf "Missing or invalid bit count")
  | p :: rest =>
    match pyInt p.text with
    | none => .error (.svf "Missing or invalid bit count")
    | some length => regLoop (invalidate { r with length := length } length) length rest

/-- Session state of ParseSVF: the six sticky registers, FREQUENCY, and the
four persistent state ids, initialized in the constructor. -/
structure Session where
  sir : RegState
  sdr : RegState
  hir : RegState
  hdr : RegState
  tir : RegState
  tdr : RegState
  FREQUENCY : Option PyFloat
  ENDIR : Nat
  ENDDR : Nat
  RUNSTATE : Nat
  ENDSTATE : Nat
deriving DecidableEq, Repr

/-- The constructor's initial session: every register fresh, no frequency,
and all four persistent states set to self.states.IDLE. -/
def initSession : Session :=
  { sir := initReg, sdr := initReg, hir := initReg, hdr := initReg,
    tir := initReg, tdr := initReg, FREQUENCY := none,
    ENDIR := statesIDLE, ENDDR := statesIDLE,
    RUNSTATE := statesIDLE, ENDSTATE := statesIDLE }

/-- Which of the two shift commands is running (the assert in cmd_shift). -/
inductive ShiftKind where
  | SIR
  | SDR
deriving DecidableEq, Repr

/-- The sticky register cmd_shift updates (self.sticky[cmd]). -/
def Session.shiftReg (sess : Session) : ShiftKind → RegState
  | .SIR => sess.sir
  | .SDR => sess.sdr

/-- Store back the updated shift register. -/
def Session.setShiftReg (sess : Session) : ShiftKind → RegState → Session
  | .SIR, r => { sess with sir := r }
  | .SDR, r => { sess with sdr := r }

/-- The matching header register: HIR for SIR, HDR for SDR ('H' + cmd[1:]). -/
def Session.headerReg (sess : Session) : ShiftKind → RegState
  | .SIR => sess.hir
  | .SDR => sess.hdr

/-- The matching trailer register: TIR for SIR, TDR for SDR ('T' + cmd[1:]). -/
def Session.trailerReg (sess : Session) : ShiftKind → RegState
  | .SIR => sess.tir
  | .SDR => sess.tdr

/-- The configured end state: ENDIR for SIR, ENDDR for SDR. -/
def Session.endFor (sess : Session) : ShiftKind → Nat
  | .SIR => sess.ENDIR
  | .SDR => sess.ENDDR

/-- The Shift named tuple: (cmd, header, data, trailer, endstate, linenum). -/
structure Shift where
  cmd : ShiftKind
  header : RegState
  data : RegState
  trailer : RegState
  endstate : Nat
  linenum : Nat
deriving DecidableEq, Repr

/-- cmd_shift: run cmd_reg on the shift register itself, then emit a Shift
record bundling the sticky header, the updated data register, the sticky
trailer, and the configured ENDIR/ENDDR state. -/
def cmd_shift (sess : Session) (k : ShiftKind) (params : List Tok) (linenum : Nat) :
    Except PyError (Session × Shift) :=
  match cmd_reg (sess.shiftReg k) params with
  | .error e => .error e
  | .ok reg2 =>
    let sess2 := sess.setShiftReg k reg2
    .ok (sess2, ⟨k, sess2.headerReg k, reg2, sess2.trailerReg k, sess2.endFor k, linenum⟩)

/-- Which persistent end state cmd_enddrir sets (the command's own name). -/
inductive EndWhich where
  | ENDIR
  | ENDDR
deriving DecidableEq, Repr

/-- setattr(self, cmd, v) for ENDIR/ENDDR. -/
def setEnd (sess : Session) : EndWhich → Nat → Session
  | .ENDIR, v => { sess with ENDIR := v }
  | .ENDDR, v => { sess with ENDDR := v }

/-- cmd_enddrir: the for loop over the parameters checks the first against
the stable set and uses a nested pull to reject a second parameter; with no
parameter at all the loop body never runs and the trailing
`setattr(self, cmd, self.states[state])` reads the unbound local `state`
(UnboundLocalError).  A single stable name is looked up in the state table
and stored; no output record is produced. -/
def cmd_enddrir (sess : Session) (which : EndWhich) (params : List String) :
    Except PyError Session :=
  match params with
  | [] => .error (.unboundLocal "state")
  | [s] =>
    if s ∈ stable then
      match states s with
      | some v => .ok (setEnd sess which v)
      | none => .error (.keyError s)
    else .error (.svf (s ++ " is not a valid SVF stable state"))
  | s :: _ :: _ =>
    if s ∈ stable then .error (.svf "Expected single state parameter")
    else .error (.svf (s ++ " is not a valid SVF stable state"))

/-- The RunTest named tuple:
(numclocks, use_sck, secs, runstate, endstate, linenum). -/
structure RunTest where
  numclocks : Option Int
  use_sck : Bool
  secs : Option PyFloat × Option PyFloat
  runstate : Nat
  endstate : Nat
  linenum : Nat
deriving DecidableEq, Repr

/-- Loop state of cmd_runtest's clause scan. -/
structure RTState where
  use_sck : Bool
  secs0 : Option PyFloat
  secs1 : Option PyFloat
  numclocks : Option Int
  do_max : Bool
  do_end : Bool
  did_end : Bool
  prev_num : Option String
deriving DecidableEq, Repr

/-- The scan state at loop entry. -/
def rtStart : RTState := ⟨false, none, none, none, false, false, false, none⟩

/-- Python `numclocks != secs[0]` (the code's clock_specified test), an int
against a float, where None only equals None. -/
def pyNe (a : Option Int) (b : Option PyFloat) : Bool :=
  match a, b with
  | none, none => false
  | some i, some q => !(pyIntEqFloat i q)
  | _, _ => true

/-- One iteration of cmd_runtest's clause loop.  In both branches that reach
`states[param]` the source refers to a global name `states` that the module
never defines (only `jtagstates` is imported), so they raise NameError. -/
def rtStep (st : RTState) (param : String) : Except PyError RTState :=
  let num := st.prev_num
  let st := { st with prev_num := none }
  let clock_specified := pyNe st.numclocks st.secs0
  match num with
  | some n =>
    match timing param with
    | none => .error (.svf ("Unexpected clause " ++ n ++ " " ++ param))
    | some 2 =>
      if (if st.do_max then st.secs1 else st.secs0).isSome then
        .error (.svf "Seconds specified twice")
      else
        match pyFloat n with
        | none => .error (.svf (n ++ " is not a valid floating point number"))
        | some q =>
          if st.do_max then .ok { st with secs1 := some q }
          else .ok { st with secs0 := some q }
    | some ct =>
      let use2 := ct == 1
      if st.do_max || clock_specified then
        .error (.svf ("Invalid " ++ param ++ " specification"))
      else
        match pyInt n with
        | none => .error (.svf (n ++ " is not a valid integer number"))
        | some i => .ok { st with use_sck := use2, numclocks := some i }
  | none =>
    if param ∈ stable then
      if st.do_end && !st.did_end && clock_specified then
        .error (.nameError "states")
      else if !st.do_end && !clock_specified then
        .error (.nameError "states")
      else .error (.svf ("Unexpected state " ++ param))
    else if st.do_end then .error (.svf ("Invalid endstate " ++ param))
    else if param = "MAXIMUM" then
      if st.secs0.isNone || st.secs1.isSome then
        .error (.svf "Cannot do MAXIMUM SEC without SEC")
      else .ok { st with do_max := true }
    else if param = "ENDSTATE" then
      if !clock_specified then .error (.svf "Unexpected ENDSTATE")
      else .ok { st with do_end := true }
    else .ok { st with prev_num := some param }

/-- Run the clause loop over the whole parameter list. -/
def rtRun (st : RTState) : List String → Except PyError RTState
  | [] => .ok st
  | p :: rest =>
    match rtStep st p with
    | .error e => .error e
    | .ok st2 => rtRun st2 rest

/-- cmd_runtest: scan the clauses, then build the RunTest record from the
gathered values and the session's persistent RUNSTATE/ENDSTATE (which no
successful scan ever changes, because the two assignments to them raise
NameError). -/
def cmd_runtest (sess : Session) (params : List String) (linenum : Nat) :
    Except PyError RunTest :=
  match rtRun rtStart params with
  | .error e => .error e
  | .ok st =>
    .ok ⟨st.numclocks, st.use_sck, (st.secs0, st.secs1),
         sess.RUNSTATE, sess.ENDSTATE, linenum⟩

/-- The State named tuple: (statelist, linenum). -/
structure StateRec where
  statelist : List Nat
  linenum : Nat
deriving DecidableEq, Repr

/-- The resolution loop of cmd_state, carrying the raw text of the last
token resolved so far (the loop variable `state`). -/
def stateLoop (acc : List Nat) (last : String) :
    List String → Except PyError (List Nat × String)
  | [] => .ok (acc, last)
  | s :: rest =>
    match states s with
    | none => .error (.svf ("Invalid state " ++ s))
    | some v => stateLoop (acc ++ [v]) s rest

/-- cmd_state: resolve every name against the full state table (unknown name
fails); after the loop only the last token is checked against the stable
set.  With no parameters the final check reads the unbound loop variable. -/
def cmd_state (params : List String) (linenum : Nat) : Except PyError StateRec :=
  match params with
  | [] => .error (.unboundLocal "state")
  | s :: rest =>
    match states s with
    | none => .error (.svf ("Invalid state " ++ s))
    | some v =>
      match stateLoop [v] s rest with
      | .error e => .error e
      | .ok (acc, last) =>
        if last ∈ stable then .ok ⟨acc, linenum⟩
        else .error (.svf (last ++ " is not a stable state"))

/-- The TRST named tuple: (value, linenum). -/
structure Trst where
  value : Nat
  linenum : Nat
deriving DecidableEq, Repr

/-- cmd_trst: unpacking `param, = iterparams` turns a wrong parameter count
into the declared SvfError, but the value itself is fetched with a raw dict
lookup `self.valid_trst[param]`, so an unknown value raises KeyError (the
following `if value is None` check can never fire). -/
def cmd_trst (params : List String) (linenum : Nat) : Except PyError Trst :=
  match params with
  | [p] =>
    match valid_trst p with
    | none => .error (.keyError p)
    | some v => .ok ⟨v, linenum⟩
  | _ => .error (.svf "Expected a single parameter")

deriving instance DecidableEq for Except

/-- Running the clause loop over an appended list runs the two pieces in
order, stopping at the first error. -/
theorem rtRun_append (l1 l2 : List String) (st : RTState) :
    rtRun st (l1 ++ l2) =
      match rtRun st l1 with
      | .error e => .error e
      | .ok st2 => rtRun st2 l2 := by
  induction l1 generalizing st with
  | nil => simp [rtRun]
  | cons p rest ih =>
    simp only [List.cons_append, rtRun]
    cases h : rtStep st p with
    | error e => rfl
    | ok st2 => exact ih st2

/-- C1: the claimed behavior of `RUNTEST 100 TCK ENDSTATE IDLE;` does not
happen: handling the state token of the ENDSTATE clause executes
`self.ENDSTATE = states[param]`, and `states` is an undefined global name
(only `jtagstates` was imported), so the command raises NameError instead of
emitting a RunTest record; the error is not the parser's SvfError, so the
driver does not even catch it. -/
theorem C1_code_eval :
    cmd_runtest initSession ["100", "TCK", "ENDSTATE", "IDLE"] 1 =
      .error (.nameError "states") ∧
    isSvfError (cmd_runtest initSession ["100", "TCK", "ENDSTATE", "IDLE"] 1) = false := by
  constructor
  · rfl
  · rfl

/-- C3: `TRST OFF;` (and ON, Z, ABSENT) yields the mapped Trst value, but an
unrecognized parameter such as BOGUS escapes as a raw KeyError from the dict
lookup, not as the declared SvfError of kind Value: the code's own
`if value is None` validation check is dead. -/
theorem C3_code_eval :
    cmd_trst ["OFF"] 7 = .ok ⟨0, 7⟩ ∧
    cmd_trst ["ON"] 7 = .ok ⟨1, 7⟩ ∧
    cmd_trst ["Z"] 7 = .ok ⟨2, 7⟩ ∧
    cmd_trst ["ABSENT"] 7 = .ok ⟨3, 7⟩ ∧
    cmd_trst ["BOGUS"] 7 = .error (.keyError "BOGUS") ∧
    isSvfError (cmd_trst ["BOGUS"] 7) = false := by
  refine ⟨rfl, rfl, rfl, rfl, rfl, rfl⟩

/-- C5 counterexample: a bare numeric token that is the last parameter of a
RUNTEST command does not make the command fail as claimed: `RUNTEST 100;`
succeeds, silently discarding the dangling number (numclocks stays unset). -/
theorem C5_counterexample :
    cmd_runtest initSession ["100"] 5 =
      .ok ⟨none, false, (none, none), statesIDLE, statesIDLE, 5⟩ := by
  rfl

/-- C5 amended: a bare numeric token followed by any token other than the
unit keywords TCK, SCK, SEC makes the RUNTEST command fail, but a bare
numeric token that is the last parameter of the command is silently
discarded and the command succeeds without it. -/
theorem C5_amended :
    (∀ (sess : Session) (linenum : Nat) (pre : List String) (p : String)
        (rest : List String) (st : RTState) (n : String),
      rtRun rtStart pre = .ok st → st.prev_num = some n → timing p = none →
      cmd_runtest sess (pre ++ p :: rest) linenum =
        .error (.svf ("Unexpected clause " ++ n ++ " " ++ p))) ∧
    cmd_runtest initSession ["100"] 5 =
      .ok ⟨none, false, (none, none), statesIDLE, statesIDLE, 5⟩ := by
  constructor
  · intro sess linenum pre p rest st n h1 h2 h3
    have hstep : rtStep st p = .error (.svf ("Unexpected clause " ++ n ++ " " ++ p)) := by
      unfold rtStep
      rw [h2, h3]
    unfold cmd_runtest
    rw [rtRun_append, h1]
    simp only [rtRun, hstep]
  · rfl

/-- C5 witness: instantiating the failure half at `RUNTEST 2 FOO;`. -/
theorem C5_witness :
    cmd_runtest initSession ["2", "FOO"] 9 =
      .error (.svf "Unexpected clause 2 FOO") := by
  exact C5_amended.1 initSession 9 ["2"] "FOO" []
    ⟨false, none, none, none, false, false, false, some "2"⟩ "2" rfl rfl rfl

/-- C7: `RUNTEST 1.5 SEC MAXIMUM 2.0 SEC;` yields seconds (1.5, 2.0);
`RUNTEST MAXIMUM 2.0 SEC;` with no prior minimum fails; and in general a
MAXIMUM clause (reached with no pending number and no open ENDSTATE clause)
is accepted exactly when the minimum seconds slot is set and the maximum
slot is still unset, and only flags the following number for the maximum
slot. -/
theorem C7_runtest_maximum :
    cmd_runtest initSession ["1.5", "SEC", "MAXIMUM", "2.0", "SEC"] 1 =
      .ok ⟨none, false, (some ⟨15, 10⟩, some ⟨20, 10⟩), statesIDLE, statesIDLE, 1⟩ ∧
    PyFloat.toRat ⟨15, 10⟩ = (3 / 2 : ℚ) ∧ PyFloat.toRat ⟨20, 10⟩ = (2 : ℚ) ∧
    cmd_runtest initSession ["MAXIMUM", "2.0", "SEC"] 1 =
      .error (.svf "Cannot do MAXIMUM SEC without SEC") ∧
    (∀ st : RTState, st.prev_num = none → st.do_end = false →
      rtStep st "MAXIMUM" =
        (if st.secs0.isNone || st.secs1.isSome then
          .error (.svf "Cannot do MAXIMUM SEC without SEC")
        else .ok { st with prev_num := none, do_max := true })) := by
  refine ⟨by decide, by norm_num [PyFloat.toRat], by norm_num [PyFloat.toRat], rfl, ?_⟩
  intro st h1 h2
  obtain ⟨u, s0, s1, nc, dm, de, dde, pn⟩ := st
  simp only at h1 h2
  subst h1; subst h2
  unfold rtStep
  simp [stable]

/-- C7 witness: the general MAXIMUM rule at two concrete scan states. -/
theorem C7_witness :
    rtStep ⟨false, some ⟨15, 10⟩, none, none, false, false, false, none⟩ "MAXIMUM" =
      .ok ⟨false, some ⟨15, 10⟩, none, none, true, false, false, none⟩ ∧
    rtStep ⟨false, none, none, none, false, false, false, none⟩ "MAXIMUM" =
      .error (.svf "Cannot do MAXIMUM SEC without SEC") := by
  constructor
  · exact C7_runtest_maximum.2.2.2.2 ⟨false, some ⟨15, 10⟩, none, none, false, false, false, none⟩ rfl rfl
  · exact C7_runtest_maximum.2.2.2.2 ⟨false, none, none, none, false, false, false, none⟩ rfl rfl

/-- C2 counterexample: the invalidation is guarded by `if plen and ...`, so a
stored pair whose length is 0 survives a length change even when it holds
data: after `SDR 0 TDI (AB)` followed by `SDR 16`, the TDI pair is still
(0, [0xAB]) although its length 0 differs from the new nonzero length 16 and
it is not the reset value (0, empty). -/
theorem C2_counterexample :
    Except.bind (cmd_reg initReg [Tok.word "0", Tok.word "TDI", Tok.hexdata ["AB"]])
        (fun r => cmd_reg r [Tok.word "16"]) =
      .ok ⟨16, nodata, nodata, (0, [171]), nodata⟩ ∧
    ((0 : Int), ([171] : List Nat)).1 ≠ 16 ∧
    ((0 : Int), ([171] : List Nat)) ≠ nodata := by
  refine ⟨rfl, by decide, by decide⟩

/-- C2 amended: whenever a register's bit-length is set, every stored
parameter pair whose length is nonzero and differs from the new length is
reset to (0, empty); a pair whose stored length equals the new length, or
whose stored length is 0, is preserved.  In particular `SDR 8 TDI (AB)` then
`SDR 16 TDI (CDEF)` leaves no length-8 TDI value, and a subsequent bare
`SDR 16` preserves the stored length-16 TDI value. -/
theorem C2_amended :
    (∀ (r : RegState) (n : Int) (pn : PName),
      (invalidate r n).get pn =
        if (r.get pn).1 ≠ 0 ∧ (r.get pn).1 ≠ n then nodata else r.get pn) ∧
    (∀ (r : RegState) (s : String) (n : Int) (rest : List Tok),
      pyInt s = some n →
      cmd_reg r (Tok.word s :: rest) =
        regLoop (invalidate { r with length := n } n) n rest) ∧
    Except.bind (cmd_reg initReg [Tok.word "8", Tok.word "TDI", Tok.hexdata ["AB"]])
        (fun r => cmd_reg r [Tok.word "16", Tok.word "TDI", Tok.hexdata ["CDEF"]]) =
      .ok ⟨16, nodata, nodata, (16, [205, 239]), nodata⟩ ∧
    Except.bind (Except.bind (cmd_reg initReg [Tok.word "8", Tok.word "TDI", Tok.hexdata ["AB"]])
        (fun r => cmd_reg r [Tok.word "16", Tok.word "TDI", Tok.hexdata ["CDEF"]]))
        (fun r => cmd_reg r [Tok.word "16"]) =
      .ok ⟨16, nodata, nodata, (16, [205, 239]), nodata⟩ := by
  refine ⟨?_, ?_, rfl, rfl⟩
  · intro r n pn
    cases pn <;> rfl
  · intro r s n rest h
    simp [cmd_reg, Tok.text, h]

/-- C2 witness: the cmd_reg phase split at a concrete command. -/
theorem C2_witness :
    cmd_reg initReg [Tok.word "8"] =
      regLoop (invalidate { initReg with length := 8 } 8) 8 [] := by
  exact C2_amended.2.1 initReg "8" 8 [] rfl

/-- C4: an SIR (resp. SDR) command whose register phase succeeds emits one
Shift record bundling the sticky HIR (resp. HDR) state as header, the
just-updated shift register as data, the sticky TIR (resp. TDR) state as
trailer, and the configured ENDIR (resp. ENDDR) state: the full sticky
snapshot, of which only the shift register itself was touched by this
command. -/
theorem C4_shift_snapshot :
    ∀ (sess : Session) (k : ShiftKind) (params : List Tok) (linenum : Nat)
      (reg2 : RegState),
      cmd_reg (sess.shiftReg k) params = .ok reg2 →
      cmd_shift sess k params linenum =
        .ok (sess.setShiftReg k reg2,
          ⟨k, sess.headerReg k, reg2, sess.trailerReg k, sess.endFor k, linenum⟩) := by
  intro sess k params linenum reg2 h
  cases k <;>
    (simp only [Session.shiftReg] at h;
     simp [cmd_shift, h, Session.setShiftReg, Session.headerReg,
       Session.trailerReg, Session.endFor, Session.shiftReg])

/-- C4 witness: the snapshot shape at a concrete `SIR 8 TDI (AB)` command. -/
theorem C4_witness :
    cmd_shift initSession .SIR [Tok.word "8", Tok.word "TDI", Tok.hexdata ["AB"]] 4 =
      .ok (initSession.setShiftReg .SIR ⟨8, nodata, nodata, (8, [171]), nodata⟩,
        ⟨.SIR, initSession.headerReg .SIR, ⟨8, nodata, nodata, (8, [171]), nodata⟩,
         initSession.trailerReg .SIR, initSession.endFor .SIR, 4⟩) := by
  exact C4_shift_snapshot initSession .SIR [Tok.word "8", Tok.word "TDI", Tok.hexdata ["AB"]]
    4 ⟨8, nodata, nodata, (8, [171]), nodata⟩ rfl

/-- C6 counterexample: `ENDIR;` with zero parameters does fail, but not with
an SVF parse error: the state-set line reads the loop variable `state` that
was never assigned, raising UnboundLocalError, which the driver's
except-SvfError clause does not catch. -/
theorem C6_counterexample :
    cmd_enddrir initSession .ENDIR [] = .error (.unboundLocal "state") ∧
    isSvfError (cmd_enddrir initSession .ENDIR []) = false := by
  refine ⟨rfl, rfl⟩

/-- C6 amended: for ENDIR/ENDDR, exactly one parameter naming a stable state
sets the corresponding persistent end-state id and produces no output
record; two or more parameters or an unrecognized state name fail with an
SVF parse error; zero parameters fail with an unhandled unbound-variable
error instead of an SVF parse error. -/
theorem C6_amended :
    (∀ (sess : Session) (w : EndWhich) (s : String) (v : Nat),
      s ∈ stable → states s = some v →
      cmd_enddrir sess w [s] = .ok (setEnd sess w v)) ∧
    (∀ (sess : Session) (w : EndWhich) (s : String),
      s ∉ stable →
      cmd_enddrir sess w [s] = .error (.svf (s ++ " is not a valid SVF stable state"))) ∧
    (∀ (sess : Session) (w : EndWhich) (s t : String) (rest : List String),
      isSvfError (cmd_enddrir sess w (s :: t :: rest)) = true) ∧
    (∀ (sess : Session) (w : EndWhich),
      cmd_enddrir sess w [] = .error (.unboundLocal "state")) := by
  refine ⟨?_, ?_, ?_, ?_⟩
  · intro sess w s v h1 h2
    simp [cmd_enddrir, h1, h2]
  · intro sess w s h1
    simp [cmd_enddrir, h1]
  · intro sess w s t rest
    by_cases h : s ∈ stable <;> simp [cmd_enddrir, h, isSvfError]
  · intro sess w
    rfl

/-- C6 witness: the amended clauses at concrete ENDIR/ENDDR commands. -/
theorem C6_witness :
    cmd_enddrir initSession .ENDDR ["DRPAUSE"] = .ok (setEnd initSession .ENDDR 6) ∧
    cmd_enddrir initSession .ENDIR ["FOO"] =
      .error (.svf "FOO is not a valid SVF stable state") ∧
    isSvfError (cmd_enddrir initSession .ENDIR ["IDLE", "IDLE"]) = true ∧
    cmd_enddrir initSession .ENDDR [] = .error (.unboundLocal "state") := by
  refine ⟨C6_amended.1 initSession .ENDDR "DRPAUSE" 6 (by decide) (by decide),
    C6_amended.2.1 initSession .ENDIR "FOO" (by decide),
    C6_amended.2.2.1 initSession .ENDIR "IDLE" "IDLE" [],
    C6_amended.2.2.2 initSession .ENDDR⟩

/-- The resolution loop succeeds exactly when every name is in the table. -/
theorem stateLoop_ok_iff (l : List String) : ∀ (acc : List Nat) (last : String),
    (∃ r, stateLoop acc last l = .ok r) ↔ ∀ p ∈ l, (states p).isSome := by
  induction l with
  | nil => intro acc last; simp [stateLoop]
  | cons s rest ih =>
    intro acc last
    cases hs : states s with
    | none => simp [stateLoop, hs]
    | some v => simp [stateLoop, hs, ih (acc ++ [v]) s]

/-- On success, the loop variable holds the text of the last token. -/
theorem stateLoop_last (l : List String) : ∀ (acc : List Nat) (last : String)
    (r : List Nat × String), stateLoop acc last l = .ok r → r.2 = l.getLastD last := by
  induction l with
  | nil =>
    intro acc last r h
    simp only [stateLoop, Except.ok.injEq] at h
    subst h
    rfl
  | cons s rest ih =>
    intro acc last r h
    rw [List.getLastD_cons]
    cases hs : states s with
    | none => simp [stateLoop, hs] at h
    | some v => exact ih (acc ++ [v]) s r (by simpa [stateLoop, hs] using h)

/-- C8: a STATE command with at least one parameter succeeds exactly when
every name resolves in the full JTAG state table and the last token is a
stable state; earlier entries are never checked for stability.  Concretely,
`STATE RESET IDLE;` succeeds, `STATE IDLE RESET_FOO;` fails on the unknown
name, and a non-stable interior state such as DRSELECT before a stable final
state is accepted. -/
theorem C8_state_validation :
    (∀ (params : List String) (linenum : Nat), params ≠ [] →
      ((∃ out, cmd_state params linenum = .ok out) ↔
        ((∀ p ∈ params, (states p).isSome) ∧ params.getLastD "" ∈ stable))) ∧
    cmd_state ["RESET", "IDLE"] 3 = .ok ⟨[0, 1], 3⟩ ∧
    isSvfError (cmd_state ["IDLE", "RESET_FOO"] 3) = true ∧
    cmd_state ["DRSELECT", "IDLE"] 3 = .ok ⟨[2, 1], 3⟩ ∧
    "DRSELECT" ∉ stable := by
  refine ⟨?_, rfl, rfl, rfl, by decide⟩
  intro params linenum hne
  match params with
  | s :: rest =>
    rw [List.getLastD_cons]
    cases hs : states s with
    | none =>
      have hcs : cmd_state (s :: rest) linenum = .error (.svf ("Invalid state " ++ s)) := by
        simp [cmd_state, hs]
      rw [hcs]
      constructor
      · rintro ⟨out, hout⟩
        cases hout
      · rintro ⟨hall, -⟩
        have := hall s (List.mem_cons_self s rest)
        rw [hs] at this
        cases this
    | some v =>
      cases hloop : stateLoop [v] s rest with
      | error e =>
        have hcs : cmd_state (s :: rest) linenum = .error e := by
          simp [cmd_state, hs, hloop]
        have hnotall : ¬ ∀ p ∈ rest, (states p).isSome := by
          intro hall
          obtain ⟨r, hr⟩ := (stateLoop_ok_iff rest [v] s).mpr hall
          rw [hloop] at hr
          cases hr
        rw [hcs]
        constructor
        · rintro ⟨out, hout⟩
          cases hout
        · rintro ⟨hall, -⟩
          exact (hnotall (fun p hp => hall p (List.mem_cons_of_mem s hp))).elim
      | ok pr =>
        obtain ⟨acc, last⟩ := pr
        have hlast : last = rest.getLastD s := stateLoop_last rest [v] s (acc, last) hloop
        have hall_rest : ∀ p ∈ rest, (states p).isSome :=
          (stateLoop_ok_iff rest [v] s).mp ⟨(acc, last), hloop⟩
        by_cases hst : last ∈ stable
        · have hcs : cmd_state (s :: rest) linenum = .ok ⟨acc, linenum⟩ := by
            simp [cmd_state, hs, hloop, hst]
          rw [hcs]
          constructor
          · intro _
            refine ⟨?_, ?_⟩
            · intro p hp
              rcases List.mem_cons.mp hp with rfl | hp2
              · simp [hs]
              · exact hall_rest p hp2
            · rw [← hlast]
              exact hst
          · intro _
            exact ⟨⟨acc, linenum⟩, rfl⟩
        · have hcs : cmd_state (s :: rest) linenum =
              .error (.svf (last ++ " is not a stable state")) := by
            simp [cmd_state, hs, hloop, hst]
          rw [hcs]
          constructor
          · rintro ⟨out, hout⟩
            cases hout
          · rintro ⟨-, hstable⟩
            rw [← hlast] at hstable
            exact (hst hstable).elim

/-- C8 witness: the characterization applied to `STATE DRSHIFT IRPAUSE;`. -/
theorem C8_witness : (cmd_state ["DRSHIFT", "IRPAUSE"] 11).isOk = true := by
  obtain ⟨out, hout⟩ :=
    (C8_state_validation.1 ["DRSHIFT", "IRPAUSE"] 11 (by decide)).mpr ⟨by decide, by decide⟩
  rw [hout]
  rfl

/-- unhexlify fails whenever some character of its input is not a hex digit. -/
theorem unhexlify_none_mem :
    ∀ (cs : List Char), (∃ c ∈ cs, hexVal c = none) → unhexlify cs = none
  | [], ⟨c, hc, _⟩ => absurd hc (List.not_mem_nil c)
  | [_], _ => rfl
  | c1 :: c2 :: rest, ⟨c, hc, hnone⟩ => by
    rcases List.mem_cons.mp hc with rfl | hc2
    · simp [unhexlify, hnone]
    · rcases List.mem_cons.mp hc2 with rfl | hc3
      · cases h1 : hexVal c1 <;> simp [unhexlify, h1, hnone]
      · have hrest := unhexlify_none_mem rest ⟨c, hc3, hnone⟩
        cases h1 : hexVal c1 <;> cases h2 : hexVal c2 <;>
          simp [unhexlify, h1, h2, hrest]

/-- C9: hex sub-tokens concatenating to the single digit F decode to the one
byte 0x0F; in general an odd total digit count is handled by decoding with a
single leading 0 inserted; and a concatenation containing a non-hex
character makes decoding fail, which makes the register command fail with an
SVF Data error. -/
theorem C9_hex_padding :
    cmd_reg initReg [Tok.word "8", Tok.word "TDI", Tok.hexdata ["F"]] =
      .ok ⟨8, nodata, nodata, (8, [15]), nodata⟩ ∧
    (∀ subs : List String, (String.join subs).length % 2 = 1 →
      decodeHexField subs = unhexlify ('0' :: (String.join subs).data)) ∧
    (∀ (subs : List String) (c : Char),
      c ∈ (String.join subs).data → hexVal c = none → decodeHexField subs = none) ∧
    (∀ (r : RegState) (len : Int) (ps : String) (pn : PName) (subs : List String)
        (rest : List Tok),
      pnameOf ps = some pn → decodeHexField subs = none →
      regLoop r len (Tok.word ps :: Tok.hexdata subs :: rest) =
        .error (.svf ("Invalid (<hex data>) for parameter " ++ ps))) := by
  refine ⟨rfl, ?_, ?_, ?_⟩
  · intro subs hodd
    simp only [decodeHexField]
    rw [if_pos hodd, String.data_append]
    rfl
  · intro subs c hc hnone
    simp only [decodeHexField]
    by_cases hodd : (String.join subs).length % 2 = 1
    · rw [if_pos hodd, String.data_append]
      exact unhexlify_none_mem _ ⟨c, List.mem_append.mpr (Or.inr hc), hnone⟩
    · rw [if_neg hodd]
      exact unhexlify_none_mem _ ⟨c, hc, hnone⟩
  · intro r len ps pn subs rest h1 h2
    simp [regLoop, Tok.text, h1, h2]

/-- C9 witness: the padding equation and the two failure clauses at
concrete hex fields. -/
theorem C9_witness :
    decodeHexField ["F"] = unhexlify ('0' :: (String.join ["F"]).data) ∧
    decodeHexField ["A", "G", "B"] = none ∧
    regLoop initReg 8 [Tok.word "TDI", Tok.hexdata ["XY"], Tok.word "Z"] =
      .error (.svf "Invalid (<hex data>) for parameter TDI") := by
  refine ⟨C9_hex_padding.2.1 ["F"] (by decide),
    C9_hex_padding.2.2.1 ["A", "G", "B"] 'G' (by decide) (by decide),
    C9_hex_padding.2.2.2 initReg 8 "TDI" .TDI ["XY"] [Tok.word "Z"] (by decide) (by decide)⟩

/-- C10: when the token stream ends while the command assembler is inside an
unclosed parenthesized hex block (no closing parenthesis and no semicolon
before end of input), no error is raised: the collected sub-tokens are
discarded and the pending command buffer, without any hex-data token for the
open block, is still yielded as the final command. -/
theorem C10_unclosed_paren :
    (∀ (rest : List (String × Nat)) (subcmd : List String) (cmd : List Tok)
        (cln : Nat) (acc : List (List Tok × Nat)),
      cmd ≠ [] → (∀ t ln, (t, ln) ∈ rest → t ≠ ";" ∧ t ≠ ")") →
      getcmdsGo rest (.hex subcmd) cmd cln acc = .ok (acc ++ [(cmd, cln)])) ∧
    getcmds [("SIR", 1), ("8", 1), ("TDI", 1), ("(", 1), ("FF", 2)] =
      .ok [([Tok.word "SIR", Tok.word "8", Tok.word "TDI"], 1)] := by
  refine ⟨?_, rfl⟩
  intro rest
  induction rest with
  | nil =>
    intro subcmd cmd cln acc hcmd _
    simp [getcmdsGo, hcmd]
  | cons p rest2 ih =>
    obtain ⟨t, ln⟩ := p
    intro subcmd cmd cln acc hcmd hno
    have ht := hno t ln (List.mem_cons_self _ _)
    simp only [getcmdsGo]
    rw [if_neg ht.1, if_neg ht.2]
    exact ih (subcmd ++ [t]) cmd cln acc hcmd
      (fun t2 ln2 h2 => hno t2 ln2 (List.mem_cons_of_mem _ h2))

/-- C10 witness: end of input right after an opened hex block with one
collected sub-token. -/
theorem C10_witness :
    getcmdsGo [("FF", 2)] (.hex []) [Tok.word "SIR"] 1 [] =
      .ok [([Tok.word "SIR"], 1)] := by
  exact C10_unclosed_paren.1 [("FF", 2)] [] [Tok.word "SIR"] 1 [] (by decide)
    (by
      intro t ln h
      simp only [List.mem_singleton, Prod.mk.injEq] at h
      obtain ⟨rfl, rfl⟩ := h
      exact ⟨by decide, by decide⟩)
